import Mathlib

/-!
Shallow embedding of the `streamwithfriends-whip-server` Go sources
(`src/server.go` and `src/unnamed/part_000`) and proofs about the
lifecycle handlers, the RTP ingest listener and the WHIP signaling
exchange.

Both variants guard a single process-wide boolean `running` with one
mutex (`mu`); every handler body executes atomically with respect to the
other handlers (the lock is held for the whole body), so each handler is
embedded as a pure function on the guarded state.  The construction and
I/O steps of the full variant (`part_000`) are fallible calls into the
pion library and the network; their outcomes are supplied as an
environment record, and the handler is the exact control flow of the Go
source over those outcomes.
-/

/-- An HTTP response written by a handler: either `w.Write(body)` with
status 200, or `http.Error(w, msg, code)`. -/
inductive HttpResponse where
  | ok (body : String)
  | error (msg : String) (code : Nat)
  deriving Repr, DecidableEq

/-- The decoded JSON body of a start request (both variants). -/
structure StartRequest where
  ingestUrl : String
  videoPort : Nat
  audioPort : Nat
  deriving Repr, DecidableEq

/-! ## The `src/server.go` variant -/

/-- `startHandler` of `src/server.go`: under the lock, reject with 409
if `running`; reject with 400 if the body does not decode; otherwise set
`running := true` and write the (garbled) acknowledgement `"asdsa"`.
Returns the response and the new value of `running`. -/
def sg_startHandler (running : Bool) (body : Option StartRequest) :
    HttpResponse × Bool :=
  if running then (.error "already running" 409, running)
  else
    match body with
    | none => (.error "bad request" 400, running)
    | some _ => (.ok "asdsa", true)

/-- `stopHandler` of `src/server.go`: under the lock, reject with 409 if
not `running`; otherwise set `running := false` and acknowledge. -/
def sg_stopHandler (running : Bool) : HttpResponse × Bool :=
  if !running then (.error "not running" 409, running)
  else (.ok "Relay stopped", false)

/-! ## Shutdown (identical in both variants)

`shutdownHandler` logs, writes the acknowledgement, and spawns
`go shutdown()`; the spawned `shutdown` takes the lock, clears
`running`, unlocks, and calls `os.Exit(0)`.  We record the ordered
sequence of observable actions. -/

/-- Observable actions of the shutdown path, in program order. -/
inductive ShutdownAction where
  | ackWritten
  | lockAcquired
  | stateCleared
  | lockReleased
  | processExit
  deriving Repr, DecidableEq

/-- The ordered action trace of `shutdownHandler` followed by the
spawned `shutdown` goroutine: the acknowledgement write happens in the
handler before the goroutine is spawned, and `os.Exit(0)` is the
goroutine's last action. -/
def shutdownTrace : List ShutdownAction :=
  [.ackWritten, .lockAcquired, .stateCleared, .lockReleased, .processExit]

/-- `shutdownHandler` (plus the spawned `shutdown`), as a function of the
current `running` flag: it writes the acknowledgement unconditionally,
clears `running`, and produces the action trace.  It has no failure
path. -/
def shutdownHandler (_running : Bool) :
    HttpResponse × Bool × List ShutdownAction :=
  (.ok "Relay server shutting down", false, shutdownTrace)

/-! ## The `src/unnamed/part_000` start handler

The handler performs, in order: the running check, body decode, audio
codec registration, video codec registration, peer-connection creation,
audio track creation (then `pc.AddTrack`), video track creation (then
`pc.AddTrack`), spawning of the two `listenRTP` goroutines,
`CreateOffer`, `SetLocalDescription`, building the WHIP POST request,
executing it, the 200/201 status check, reading the answer body, and
`SetRemoteDescription`.  Each call's outcome is an environment field.
No failure path closes the peer connection or the listener sockets; the
only resource released is the HTTP response body (`defer
resp.Body.Close()`), once a response has been obtained. -/

/-- Outcomes of the fallible calls made by the `part_000` start handler,
in source order.  `httpResult = none` models a transport error from
`http.DefaultClient.Do`; `some (status, respBody)` a received response. -/
structure StartEnv where
  body : Option StartRequest
  audioCodecOk : Bool
  videoCodecOk : Bool
  newPCOk : Bool
  audioTrackOk : Bool
  videoTrackOk : Bool
  audioBindOk : Bool
  videoBindOk : Bool
  createOfferOk : Bool
  setLocalOk : Bool
  newRequestOk : Bool
  httpResult : Option (Nat × String)
  readAnswerOk : Bool
  setRemoteOk : Bool
  deriving Repr, DecidableEq

/-- The state observable when the `part_000` start handler returns: the
response it wrote, the `running` flag, and which session resources are
held open at that point.  `audioSockOpen`/`videoSockOpen` report whether
the corresponding spawned listener holds a bound (and not yet closed)
UDP socket; `respBodyClosed` reports whether the deferred
`resp.Body.Close()` ran. -/
structure P0Result where
  resp : HttpResponse
  running : Bool
  pcOpen : Bool
  audioTrackMade : Bool
  videoTrackMade : Bool
  listenersSpawned : Bool
  audioSockOpen : Bool
  videoSockOpen : Bool
  respBodyClosed : Bool
  deriving Repr, DecidableEq

/-- Result of an exit taken before any resource is constructed. -/
def P0Result.bare (resp : HttpResponse) (running : Bool) : P0Result :=
  { resp := resp, running := running, pcOpen := false,
    audioTrackMade := false, videoTrackMade := false,
    listenersSpawned := false, audioSockOpen := false,
    videoSockOpen := false, respBodyClosed := false }

/-- `startHandler` of `src/unnamed/part_000`, with the outcome of every
fallible call supplied by `env`.  The control flow and response texts
mirror the Go source line by line. -/
def p0_startHandler (running : Bool) (env : StartEnv) : P0Result :=
  if running then .bare (.error "already running" 409) running
  else
    match env.body with
    | none => .bare (.error "bad request" 400) false
    | some _ =>
      if !env.audioCodecOk then
        .bare (.error "failed to register audio codec" 500) false
      else if !env.videoCodecOk then
        .bare (.error "failed to register video codec" 500) false
      else if !env.newPCOk then
        .bare (.error "failed to create pc" 500) false
      else if !env.audioTrackOk then
        { P0Result.bare (.error "failed audio track" 500) false with
          pcOpen := true }
      else if !env.videoTrackOk then
        { P0Result.bare (.error "failed video track" 500) false with
          pcOpen := true, audioTrackMade := true }
      else
        -- both tracks added; `go listenRTP` spawned for audio and video
        let base : P0Result :=
          { resp := .ok "", running := false, pcOpen := true,
            audioTrackMade := true, videoTrackMade := true,
            listenersSpawned := true, audioSockOpen := env.audioBindOk,
            videoSockOpen := env.videoBindOk, respBodyClosed := false }
        if !env.createOfferOk then
          { base with resp := .error "failed to create offer" 500 }
        else if !env.setLocalOk then
          { base with resp := .error "failed to set local desc" 500 }
        else if !env.newRequestOk then
          { base with resp := .error "failed to build whip request" 500 }
        else
          match env.httpResult with
          | none => { base with resp := .error "whip request failed" 500 }
          | some (status, respBody) =>
            -- `defer resp.Body.Close()` is now armed
            if status != 201 && status != 200 then
              let msg := "whip error " ++ toString status ++ ": " ++ respBody
              { base with resp := .error msg 500, respBodyClosed := true }
            else if !env.readAnswerOk then
              { base with
                resp := .error "failed to read whip answer" 500,
                respBodyClosed := true }
            else if !env.setRemoteOk then
              { base with
                resp := .error "failed to set remote desc" 500,
                respBodyClosed := true }
            else
              { base with
                resp := .ok "Relay started",
                running := true,
                respBodyClosed := true }

/-! ## The `listenRTP` receive loop (`src/unnamed/part_000`, lines 186-219)

`listenRTP` binds a loopback UDP socket (logging and returning on bind
failure), then loops: `conn.ReadFrom` (terminate on error), RTP
`Unmarshal` (log and `continue` on error), `track.WriteRTP` (terminate
on error).  The deferred `conn.Close()` runs exactly when the loop
returns.  We embed the loop over a finite schedule of receive outcomes;
`pion`'s RTP decoder and the track's `WriteRTP` are external calls and
are passed in as parameters. -/

/-- The header fields and payload of a decoded RTP packet (`rtp.Packet`
as used by the source). -/
structure RTPPacket where
  ssrc : Nat
  seq : Nat
  ts : Nat
  payloadType : Nat
  payload : List Nat
  deriving Repr, DecidableEq

/-- One outcome of `conn.ReadFrom`: either a datagram's bytes, or a
read error. -/
inductive RecvEvent where
  | datagram (bytes : List Nat)
  | recvError
  deriving Repr, DecidableEq

/-- The receive loop of `listenRTP` over a finite schedule of receive
outcomes.  Returns the packets successfully written to the track, in
order, and whether the loop returned (so that the deferred
`conn.Close()` ran).  If the schedule is exhausted the loop is still
blocked in `conn.ReadFrom` and the socket is still open. -/
def listenLoop (decode : List Nat → Option RTPPacket)
    (writeOk : RTPPacket → Bool) :
    List RecvEvent → List RTPPacket × Bool
  | [] => ([], false)
  | .recvError :: _ => ([], true)
  | .datagram d :: rest =>
    match decode d with
    | none => listenLoop decode writeOk rest
    | some pkt =>
      if writeOk pkt then
        let r := listenLoop decode writeOk rest
        (pkt :: r.1, r.2)
      else ([], true)

/-- `listenRTP`: on bind failure it logs and returns without entering
the loop (no packet is ever written, and no socket is left open);
otherwise it runs the receive loop.  The second component is `true` iff
the listener task has returned. -/
def listenRTP (bindOk : Bool) (decode : List Nat → Option RTPPacket)
    (writeOk : RTPPacket → Bool) (events : List RecvEvent) :
    List RTPPacket × Bool :=
  if bindOk then listenLoop decode writeOk events
  else ([], true)

/-! ## The concurrent lifecycle transition system

To settle the mutual-exclusion invariant we model threads running the
three handlers concurrently.  Each handler body is split into atomic
micro-steps; the mutex `mu` is a `lock : Option Nat` holding the index
of the thread inside its critical section.  A successful start appends a
`Running` session to the history list `sessions`; `stopHandler` and
`shutdown` mark every running session idle (the source keeps at most one
and overwrites the global handle).

Program counters:
* start thread: `0` before `mu.Lock()`; `1` holding the lock, before
  the `running` check; `2` past the check (`running` was `false`),
  performing construction/signaling; `3` about to commit
  (`running = true`); `4` returned.
* stop thread: `0` before `mu.Lock()`; `1` holding the lock; `4`
  returned.
* shutdown thread: `0` before writing the acknowledgement; `1` acked,
  before the spawned goroutine's `mu.Lock()`; `2` holding the lock; `4`
  done (the process exit that follows generates no further lifecycle
  transitions). -/

/-- What a thread of the lifecycle system is executing.  A start
thread's construction/signaling steps either all succeed
(`tstart true`) or fail somewhere (`tstart false`, releasing the lock
without committing). -/
inductive ThreadKind where
  | tstart (succeeds : Bool)
  | tstop
  | tshutdown
  deriving Repr, DecidableEq

/-- A thread: its handler and its program counter. -/
structure Thread where
  kind : ThreadKind
  pc : Nat
  deriving Repr, DecidableEq

/-- State of the whole process: the mutex (index of the holding thread,
if any), the `running` flag, the history of created sessions (`true` =
still `Running`), and the threads. -/
structure Sys where
  lock : Option Nat
  running : Bool
  sessions : List Bool
  threads : List Thread
  deriving Repr, DecidableEq

/-- Number of sessions currently `Running`. -/
def runningSessions (s : Sys) : Nat := (s.sessions.filter id).length

/-- One atomic micro-step of some thread, with the mutex semantics of
`mu`: a thread enters its critical section only when `lock = none`, and
every `running`/`sessions` mutation happens while holding the lock. -/
inductive Step : Sys → Sys → Prop where
  | startAcquire (s : Sys) (i : Nat) (b : Bool)
      (ht : s.threads[i]? = some ⟨.tstart b, 0⟩) (hl : s.lock = none) :
      Step s { s with lock := some i, threads := s.threads.set i ⟨.tstart b, 1⟩ }
  | startBusy (s : Sys) (i : Nat) (b : Bool)
      (ht : s.threads[i]? = some ⟨.tstart b, 1⟩) (hr : s.running = true) :
      Step s { s with lock := none, threads := s.threads.set i ⟨.tstart b, 4⟩ }
  | startFree (s : Sys) (i : Nat) (b : Bool)
      (ht : s.threads[i]? = some ⟨.tstart b, 1⟩) (hr : s.running = false) :
      Step s { s with threads := s.threads.set i ⟨.tstart b, 2⟩ }
  | startFail (s : Sys) (i : Nat)
      (ht : s.threads[i]? = some ⟨.tstart false, 2⟩) :
      Step s { s with lock := none, threads := s.threads.set i ⟨.tstart false, 4⟩ }
  | startWork (s : Sys) (i : Nat)
      (ht : s.threads[i]? = some ⟨.tstart true, 2⟩) :
      Step s { s with threads := s.threads.set i ⟨.tstart true, 3⟩ }
  | startCommit (s : Sys) (i : Nat)
      (ht : s.threads[i]? = some ⟨.tstart true, 3⟩) :
      Step s { s with
               running := true,
               sessions := s.sessions ++ [true],
               lock := none,
               threads := s.threads.set i ⟨.tstart true, 4⟩ }
  | stopAcquire (s : Sys) (i : Nat)
      (ht : s.threads[i]? = some ⟨.tstop, 0⟩) (hl : s.lock = none) :
      Step s { s with lock := some i, threads := s.threads.set i ⟨.tstop, 1⟩ }
  | stopIdle (s : Sys) (i : Nat)
      (ht : s.threads[i]? = some ⟨.tstop, 1⟩) (hr : s.running = false) :
      Step s { s with lock := none, threads := s.threads.set i ⟨.tstop, 4⟩ }
  | stopRunning (s : Sys) (i : Nat)
      (ht : s.threads[i]? = some ⟨.tstop, 1⟩) (hr : s.running = true) :
      Step s { s with
               running := false,
               sessions := s.sessions.map (fun _ => false),
               lock := none,
               threads := s.threads.set i ⟨.tstop, 4⟩ }
  | shutAck (s : Sys) (i : Nat)
      (ht : s.threads[i]? = some ⟨.tshutdown, 0⟩) :
      Step s { s with threads := s.threads.set i ⟨.tshutdown, 1⟩ }
  | shutAcquire (s : Sys) (i : Nat)
      (ht : s.threads[i]? = some ⟨.tshutdown, 1⟩) (hl : s.lock = none) :
      Step s { s with lock := some i, threads := s.threads.set i ⟨.tshutdown, 2⟩ }
  | shutFinish (s : Sys) (i : Nat)
      (ht : s.threads[i]? = some ⟨.tshutdown, 2⟩) :
      Step s { s with
               running := false,
               sessions := s.sessions.map (fun _ => false),
               lock := none,
               threads := s.threads.set i ⟨.tshutdown, 4⟩ }

/-- The initial state for an arbitrary population of concurrent callers:
lock free, not running, no session yet, every thread at its entry
point. -/
def initSys (ks : List ThreadKind) : Sys :=
  { lock := none, running := false, sessions := [],
    threads := ks.map (fun k => ⟨k, 0⟩) }

/-- Reachability under arbitrary interleaving of the micro-steps. -/
def Reachable (s t : Sys) : Prop := Relation.ReflTransGen Step s t

/-! ## The mutual-exclusion invariant -/

/-- A thread is inside the critical section guarded by `mu`. -/
def inCrit : Thread → Prop
  | ⟨.tstart _, pc⟩ => pc = 1 ∨ pc = 2 ∨ pc = 3
  | ⟨.tstop, pc⟩ => pc = 1
  | ⟨.tshutdown, pc⟩ => pc = 2

/-- A start thread that has passed the `running` check and has not yet
committed or released the lock. -/
def pastCheck : Thread → Prop
  | ⟨.tstart _, pc⟩ => pc = 2 ∨ pc = 3
  | ⟨.tstop, _⟩ => False
  | ⟨.tshutdown, _⟩ => False

/-- The inductive invariant: (1) a thread in its critical section holds
the lock; (2) a start thread past the `running` check saw, and still
has, `running = false`; (3) the number of `Running` sessions is `1` when
the flag is set and `0` otherwise. -/
def SysInv (s : Sys) : Prop :=
  (∀ (i : Nat) (t : Thread), s.threads[i]? = some t → inCrit t → s.lock = some i) ∧
  (∀ (i : Nat) (t : Thread), s.threads[i]? = some t → pastCheck t → s.running = false) ∧
  runningSessions s = (if s.running then 1 else 0)

theorem lookup_set_cases {α : Type} {l : List α} {i j : Nat} {a b t : α}
    (hi : l[i]? = some a) (h : (l.set i b)[j]? = some t) :
    (j = i ∧ t = b) ∨ (j ≠ i ∧ l[j]? = some t) := by
  by_cases hji : j = i
  · subst hji
    have hlen : j < l.length := by
      by_contra hge
      rw [List.getElem?_eq_none (Nat.le_of_not_lt hge)] at hi
      exact Option.noConfusion hi
    rw [List.getElem?_set_self hlen] at h
    exact Or.inl ⟨rfl, (Option.some.inj h).symm⟩
  · rw [List.getElem?_set_ne (fun he => hji he.symm)] at h
    exact Or.inr ⟨hji, h⟩

theorem filter_id_map_false (l : List Bool) :
    (l.map (fun _ => false)).filter id = [] := by
  induction l with
  | nil => rfl
  | cons a l ih => simp [ih]

theorem inv_init (ks : List ThreadKind) : SysInv (initSys ks) := by
  refine ⟨?_, ?_, ?_⟩
  · intro i t ht hc
    simp only [initSys, List.getElem?_map] at ht
    cases hk : ks[i]? with
    | none => rw [hk] at ht; exact Option.noConfusion ht
    | some k =>
      rw [hk] at ht
      cases Option.some.inj ht
      cases k <;> simp [inCrit] at hc
  · intro i t ht hp
    simp only [initSys, List.getElem?_map] at ht
    cases hk : ks[i]? with
    | none => rw [hk] at ht; exact Option.noConfusion ht
    | some k =>
      rw [hk] at ht
      cases Option.some.inj ht
      cases k <;> simp [pastCheck] at hp
  · simp [runningSessions, initSys]

theorem pastCheck_inCrit {t : Thread} (h : pastCheck t) : inCrit t := by
  obtain ⟨k, pc⟩ := t
  cases k with
  | tstart b =>
    rcases h with h | h
    · exact Or.inr (Or.inl h)
    · exact Or.inr (Or.inr h)
  | tstop => exact h.elim
  | tshutdown => exact h.elim

theorem crit_eq {s : Sys}
    (hcl : ∀ (i : Nat) (t : Thread), s.threads[i]? = some t → inCrit t → s.lock = some i)
    {i j : Nat} {ti tj : Thread} (hi : s.threads[i]? = some ti) (hci : inCrit ti)
    (hj : s.threads[j]? = some tj) (hcj : inCrit tj) : i = j :=
  Option.some.inj ((hcl i ti hi hci).symm.trans (hcl j tj hj hcj))

theorem inv_step {s t : Sys} (hinv : SysInv s) (hst : Step s t) : SysInv t := by
  obtain ⟨hcl, hpf, hcf⟩ := hinv
  cases hst with
  | startAcquire i b ht hl =>
    refine ⟨?_, ?_, ?_⟩
    · intro j u hju hcu
      rcases lookup_set_cases ht hju with ⟨rfl, rfl⟩ | ⟨hne, hj⟩
      · rfl
      · have h := hcl j u hj hcu
        rw [hl] at h
        exact Option.noConfusion h
    · intro j u hju hpu
      rcases lookup_set_cases ht hju with ⟨rfl, rfl⟩ | ⟨hne, hj⟩
      · simp [pastCheck] at hpu
      · exact hpf j u hj hpu
    · exact hcf
  | startBusy i b ht hr =>
    refine ⟨?_, ?_, ?_⟩
    · intro j u hju hcu
      rcases lookup_set_cases ht hju with ⟨rfl, rfl⟩ | ⟨hne, hj⟩
      · simp [inCrit] at hcu
      · exact absurd (crit_eq hcl ht (by simp [inCrit]) hj hcu).symm hne
    · intro j u hju hpu
      rcases lookup_set_cases ht hju with ⟨rfl, rfl⟩ | ⟨hne, hj⟩
      · simp [pastCheck] at hpu
      · exact absurd (crit_eq hcl ht (by simp [inCrit]) hj (pastCheck_inCrit hpu)).symm hne
    · exact hcf
  | startFree i b ht hr =>
    refine ⟨?_, ?_, ?_⟩
    · intro j u hju hcu
      rcases lookup_set_cases ht hju with ⟨rfl, rfl⟩ | ⟨hne, hj⟩
      · exact hcl _ _ ht (by simp [inCrit])
      · exact hcl j u hj hcu
    · intro j u hju hpu
      rcases lookup_set_cases ht hju with ⟨rfl, rfl⟩ | ⟨hne, hj⟩
      · exact hr
      · exact hpf j u hj hpu
    · exact hcf
  | startFail i ht =>
    refine ⟨?_, ?_, ?_⟩
    · intro j u hju hcu
      rcases lookup_set_cases ht hju with ⟨rfl, rfl⟩ | ⟨hne, hj⟩
      · simp [inCrit] at hcu
      · exact absurd (crit_eq hcl ht (by simp [inCrit]) hj hcu).symm hne
    · intro j u hju hpu
      exact hpf _ _ ht (by simp [pastCheck])
    · exact hcf
  | startWork i ht =>
    refine ⟨?_, ?_, ?_⟩
    · intro j u hju hcu
      rcases lookup_set_cases ht hju with ⟨rfl, rfl⟩ | ⟨hne, hj⟩
      · exact hcl _ _ ht (by simp [inCrit])
      · exact hcl j u hj hcu
    · intro j u hju hpu
      exact hpf _ _ ht (by simp [pastCheck])
    · exact hcf
  | startCommit i ht =>
    have hrun : s.running = false := hpf _ _ ht (by simp [pastCheck])
    have hc0 : (s.sessions.filter id).length = 0 := by
      simpa [runningSessions, hrun] using hcf
    refine ⟨?_, ?_, ?_⟩
    · intro j u hju hcu
      rcases lookup_set_cases ht hju with ⟨rfl, rfl⟩ | ⟨hne, hj⟩
      · simp [inCrit] at hcu
      · exact absurd (crit_eq hcl ht (by simp [inCrit]) hj hcu).symm hne
    · intro j u hju hpu
      rcases lookup_set_cases ht hju with ⟨rfl, rfl⟩ | ⟨hne, hj⟩
      · simp [pastCheck] at hpu
      · exact absurd (crit_eq hcl ht (by simp [inCrit]) hj (pastCheck_inCrit hpu)).symm hne
    · simp [runningSessions, List.filter_append, hc0]
  | stopAcquire i ht hl =>
    refine ⟨?_, ?_, ?_⟩
    · intro j u hju hcu
      rcases lookup_set_cases ht hju with ⟨rfl, rfl⟩ | ⟨hne, hj⟩
      · rfl
      · have h := hcl j u hj hcu
        rw [hl] at h
        exact Option.noConfusion h
    · intro j u hju hpu
      rcases lookup_set_cases ht hju with ⟨rfl, rfl⟩ | ⟨hne, hj⟩
      · exact hpu.elim
      · exact hpf j u hj hpu
    · exact hcf
  | stopIdle i ht hr =>
    refine ⟨?_, ?_, ?_⟩
    · intro j u hju hcu
      rcases lookup_set_cases ht hju with ⟨rfl, rfl⟩ | ⟨hne, hj⟩
      · simp [inCrit] at hcu
      · exact absurd (crit_eq hcl ht (by simp [inCrit]) hj hcu).symm hne
    · intro j u hju hpu
      exact hr
    · exact hcf
  | stopRunning i ht hr =>
    refine ⟨?_, ?_, ?_⟩
    · intro j u hju hcu
      rcases lookup_set_cases ht hju with ⟨rfl, rfl⟩ | ⟨hne, hj⟩
      · simp [inCrit] at hcu
      · exact absurd (crit_eq hcl ht (by simp [inCrit]) hj hcu).symm hne
    · intro j u hju hpu
      rfl
    · simp [runningSessions, filter_id_map_false]
  | shutAck i ht =>
    refine ⟨?_, ?_, ?_⟩
    · intro j u hju hcu
      rcases lookup_set_cases ht hju with ⟨rfl, rfl⟩ | ⟨hne, hj⟩
      · simp [inCrit] at hcu
      · exact hcl j u hj hcu
    · intro j u hju hpu
      rcases lookup_set_cases ht hju with ⟨rfl, rfl⟩ | ⟨hne, hj⟩
      · exact hpu.elim
      · exact hpf j u hj hpu
    · exact hcf
  | shutAcquire i ht hl =>
    refine ⟨?_, ?_, ?_⟩
    · intro j u hju hcu
      rcases lookup_set_cases ht hju with ⟨rfl, rfl⟩ | ⟨hne, hj⟩
      · rfl
      · have h := hcl j u hj hcu
        rw [hl] at h
        exact Option.noConfusion h
    · intro j u hju hpu
      rcases lookup_set_cases ht hju with ⟨rfl, rfl⟩ | ⟨hne, hj⟩
      · exact hpu.elim
      · exact hpf j u hj hpu
    · exact hcf
  | shutFinish i ht =>
    refine ⟨?_, ?_, ?_⟩
    · intro j u hju hcu
      rcases lookup_set_cases ht hju with ⟨rfl, rfl⟩ | ⟨hne, hj⟩
      · simp [inCrit] at hcu
      · exact absurd (crit_eq hcl ht (by simp [inCrit]) hj hcu).symm hne
    · intro j u hju hpu
      rfl
    · simp [runningSessions, filter_id_map_false]

theorem inv_reachable {s t : Sys} (hs : SysInv s) (h : Reachable s t) : SysInv t := by
  induction h with
  | refl => exact hs
  | tail _ hstep ih => exact inv_step ih hstep

/-- C1: For all sequences and interleavings of Start, Stop, and Shutdown
operations, at most one Session is Running (non-idle) at any instant:
every lifecycle transition executes under the single mutual-exclusion
lock over the process-wide running state, so a second session can never
become Running while one is already Running. -/
theorem at_most_one_running_session (ks : List ThreadKind) (s : Sys)
    (h : Reachable (initSys ks) s) : runningSessions s ≤ 1 := by
  obtain ⟨-, -, hcf⟩ := inv_reachable (inv_init ks) h
  rw [hcf]
  split <;> simp

/-- Witness for C1: a concrete four-step interleaving in which one start
thread acquires the lock, passes the check, and commits a `Running`
session; the reachable state has exactly one running session. -/
theorem at_most_one_running_session_witness :
    runningSessions
      { lock := none, running := true, sessions := [true],
        threads := [⟨ThreadKind.tstart true, 4⟩] } ≤ 1 := by
  apply at_most_one_running_session [ThreadKind.tstart true]
  refine Relation.ReflTransGen.head (Step.startAcquire _ 0 true rfl rfl) ?_
  refine Relation.ReflTransGen.head (Step.startFree _ 0 true rfl rfl) ?_
  refine Relation.ReflTransGen.head (Step.startWork _ 0 rfl) ?_
  refine Relation.ReflTransGen.head (Step.startCommit _ 0 rfl) ?_
  exact Relation.ReflTransGen.refl

/-- C7: `Start` invoked while the state is `Running` always fails with
the `AlreadyRunning` conflict (409) for every request body, and `Stop`
invoked while the state is not `Running` always fails with the
`NotRunning` conflict (409); both failed calls leave the lifecycle state
unchanged. -/
theorem start_running_conflict_stop_idle_conflict :
    (∀ body : Option StartRequest,
        sg_startHandler true body = (.error "already running" 409, true)) ∧
    sg_stopHandler false = (.error "not running" 409, false) :=
  ⟨fun _ => rfl, rfl⟩

/-- C8: Shutdown never fails: invoked in any state it acknowledges with
200, marks the state idle, and the acknowledgement write precedes the
process exit in the action trace, so the caller receives the response
before termination completes. -/
theorem shutdown_unconditional_ack_before_exit :
    ∀ running : Bool,
      (shutdownHandler running).1 = .ok "Relay server shutting down" ∧
      (shutdownHandler running).2.1 = false ∧
      (shutdownHandler running).2.2.indexOf ShutdownAction.ackWritten <
        (shutdownHandler running).2.2.indexOf ShutdownAction.processExit :=
  fun _ => ⟨rfl, rfl,
    show shutdownTrace.indexOf ShutdownAction.ackWritten <
        shutdownTrace.indexOf ShutdownAction.processExit by decide⟩

/-- C9: whenever the state is `Running`, `Start` returns `AlreadyRunning`
(409) for every request body, including undecodable ones, in both source
variants: the running-state check precedes the body decode, so a
malformed body submitted while running yields 409, never the
bad-request 400. -/
theorem running_check_precedes_body_decode :
    (∀ body : Option StartRequest,
        sg_startHandler true body = (.error "already running" 409, true) ∧
        (sg_startHandler true body).1 ≠ .error "bad request" 400) ∧
    (∀ env : StartEnv,
        (p0_startHandler true env).resp = .error "already running" 409) :=
  ⟨fun _ => ⟨rfl,
      show HttpResponse.error "already running" 409 ≠ .error "bad request" 400
        by decide⟩,
    fun _ => rfl⟩

/-! ## Concrete environments used by counterexamples and witnesses -/

/-- A decodable start request. -/
def req0 : StartRequest := ⟨"http://ingest.local/whip", 5004, 5006⟩

/-- An environment in which every construction, bind and signaling step
succeeds and the ingest endpoint answers 201. -/
def envAllOk : StartEnv :=
  { body := some req0,
    audioCodecOk := true, videoCodecOk := true, newPCOk := true,
    audioTrackOk := true, videoTrackOk := true,
    audioBindOk := true, videoBindOk := true,
    createOfferOk := true, setLocalOk := true, newRequestOk := true,
    httpResult := some (201, "v=0 answer"), readAnswerOk := true,
    setRemoteOk := true }

/-- `envAllOk` except that binding the audio UDP port fails. -/
def envBindFail : StartEnv := { envAllOk with audioBindOk := false }

/-- `envAllOk` except that the ingest endpoint answers HTTP 500 with
body `"ingest rejected"`. -/
def env500 : StartEnv :=
  { envAllOk with httpResult := some (500, "ingest rejected") }

/-- C2 counterexample: in a Start call where binding the audio UDP port
fails but every other step succeeds, the handler still reports success
and the state becomes `Running` — the bind failure, which happens inside
the spawned `listenRTP` goroutine, does not abort the owning Start
call. -/
theorem bind_failure_does_not_abort_start_cex :
    (p0_startHandler false envBindFail).resp = .ok "Relay started" ∧
    (p0_startHandler false envBindFail).running = true :=
  ⟨rfl, rfl⟩

/-- C2 amended: when binding the UDP port fails, the listener task logs
the failure and terminates at once, never forwarding a packet; the
owning Start call is unaffected — with the remaining steps succeeding it
still reports success and the state still becomes `Running`, regardless
of either bind outcome. -/
theorem bind_failure_local_to_listener :
    (∀ (dec : List Nat → Option RTPPacket) (wr : RTPPacket → Bool)
        (evts : List RecvEvent), listenRTP false dec wr evts = ([], true)) ∧
    (∀ a v : Bool,
        (p0_startHandler false
            { envAllOk with audioBindOk := a, videoBindOk := v }).resp
          = .ok "Relay started" ∧
        (p0_startHandler false
            { envAllOk with audioBindOk := a, videoBindOk := v }).running
          = true) := by
  refine ⟨fun _ _ _ => rfl, fun a v => ?_⟩
  cases a <;> cases v <;> exact ⟨rfl, rfl⟩

/-- C3 counterexample: a Start whose WHIP exchange is answered HTTP 500
with body `"ingest rejected"` fails and leaves the state idle, but the
partially constructed resources are not all released: the peer
connection and both bound UDP listener sockets remain open. -/
theorem signaling_failure_leaks_resources_cex :
    (p0_startHandler false env500).resp
      = .error "whip error 500: ingest rejected" 500 ∧
    (p0_startHandler false env500).running = false ∧
    ¬ ((p0_startHandler false env500).pcOpen = false ∧
       (p0_startHandler false env500).audioSockOpen = false ∧
       (p0_startHandler false env500).videoSockOpen = false) := by
  refine ⟨rfl, rfl, ?_⟩
  decide

/-- C3 amended: for every Start whose signaling exchange fails (the
ingest endpoint returns a non-200/201 status), the operation fails with
the corresponding error and the lifecycle state is idle afterwards — no
partial session is left `Running` — but the partially constructed
resources are not released: the peer connection stays open and each
successfully bound UDP listener socket stays open (only the HTTP
response body is closed). -/
theorem signaling_failure_idle_but_resources_leak
    (env : StartEnv) (req : StartRequest) (status : Nat) (respBody : String)
    (hb : env.body = some req)
    (h1 : env.audioCodecOk = true) (h2 : env.videoCodecOk = true)
    (h3 : env.newPCOk = true) (h4 : env.audioTrackOk = true)
    (h5 : env.videoTrackOk = true) (h6 : env.createOfferOk = true)
    (h7 : env.setLocalOk = true) (h8 : env.newRequestOk = true)
    (hhttp : env.httpResult = some (status, respBody))
    (hs1 : status ≠ 201) (hs2 : status ≠ 200) :
    (p0_startHandler false env).resp
      = .error ("whip error " ++ toString status ++ ": " ++ respBody) 500 ∧
    (p0_startHandler false env).running = false ∧
    (p0_startHandler false env).pcOpen = true ∧
    (p0_startHandler false env).audioSockOpen = env.audioBindOk ∧
    (p0_startHandler false env).videoSockOpen = env.videoBindOk ∧
    (p0_startHandler false env).respBodyClosed = true := by
  have hcond : (status != 201 && status != 200) = true := by
    simp [hs1, hs2]
  simp [p0_startHandler, hb, h1, h2, h3, h4, h5, h6, h7, h8, hhttp, hcond]

/-- Witness for the amended C3 at the mock 500 response. -/
theorem signaling_failure_idle_but_resources_leak_witness :
    (p0_startHandler false env500).resp
      = .error ("whip error " ++ toString 500 ++ ": " ++ "ingest rejected") 500 ∧
    (p0_startHandler false env500).running = false ∧
    (p0_startHandler false env500).pcOpen = true ∧
    (p0_startHandler false env500).audioSockOpen = env500.audioBindOk ∧
    (p0_startHandler false env500).videoSockOpen = env500.videoBindOk ∧
    (p0_startHandler false env500).respBodyClosed = true :=
  signaling_failure_idle_but_resources_leak env500 req0 500 "ingest rejected"
    rfl rfl rfl rfl rfl rfl rfl rfl rfl rfl (by decide) (by decide)

/-- `sub` occurs as a contiguous substring of `s`. -/
def strContains (sub s : String) : Prop :=
  ∃ a b : List Char, s.data = a ++ sub.data ++ b

theorem str_data_append (a b : String) : (a ++ b).data = a.data ++ b.data := by
  cases a
  cases b
  rfl

/-- C5: for every Start in which the WHIP POST returns an HTTP status
other than 200 or 201, Start fails with the signaling error and the
reported diagnostic contains both the numeric status code and the
response body text; the state does not become `Running`. -/
theorem whip_non_2xx_diagnostic_carries_status_and_body
    (env : StartEnv) (req : StartRequest) (status : Nat) (respBody : String)
    (hb : env.body = some req)
    (h1 : env.audioCodecOk = true) (h2 : env.videoCodecOk = true)
    (h3 : env.newPCOk = true) (h4 : env.audioTrackOk = true)
    (h5 : env.videoTrackOk = true) (h6 : env.createOfferOk = true)
    (h7 : env.setLocalOk = true) (h8 : env.newRequestOk = true)
    (hhttp : env.httpResult = some (status, respBody))
    (hs1 : status ≠ 201) (hs2 : status ≠ 200) :
    ∃ msg : String,
      (p0_startHandler false env).resp = .error msg 500 ∧
      strContains (toString status) msg ∧
      strContains respBody msg ∧
      (p0_startHandler false env).running = false := by
  have hcond : (status != 201 && status != 200) = true := by
    simp [hs1, hs2]
  refine ⟨"whip error " ++ toString status ++ ": " ++ respBody, ?_, ?_, ?_, ?_⟩
  · simp [p0_startHandler, hb, h1, h2, h3, h4, h5, h6, h7, h8, hhttp, hcond]
  · exact ⟨("whip error ").data, (": " ++ respBody).data, by
      simp [str_data_append, List.append_assoc]⟩
  · exact ⟨("whip error " ++ toString status ++ ": ").data, [], by
      simp [str_data_append, List.append_assoc]⟩
  · simp [p0_startHandler, hb, h1, h2, h3, h4, h5, h6, h7, h8, hhttp, hcond]

/-- Witness for C5 at the mock 500 / `"ingest rejected"` response. -/
theorem whip_non_2xx_diagnostic_witness :
    ∃ msg : String,
      (p0_startHandler false env500).resp = .error msg 500 ∧
      strContains (toString 500) msg ∧
      strContains "ingest rejected" msg ∧
      (p0_startHandler false env500).running = false :=
  whip_non_2xx_diagnostic_carries_status_and_body env500 req0 500
    "ingest rejected" rfl rfl rfl rfl rfl rfl rfl rfl rfl rfl
    (by decide) (by decide)

/-- The packet a receive event decodes to, if any: `pion`'s
`rtp.Packet.Unmarshal` applied to the datagram's bytes. -/
def eventDecode (decode : List Nat → Option RTPPacket) :
    RecvEvent → Option RTPPacket
  | .datagram d => decode d
  | .recvError => none

theorem listenLoop_all_writes (decode : List Nat → Option RTPPacket)
    (writeOk : RTPPacket → Bool) (hw : ∀ p, writeOk p = true) :
    ∀ events : List RecvEvent, RecvEvent.recvError ∉ events →
      listenLoop decode writeOk events
        = (events.filterMap (eventDecode decode), false) := by
  intro events
  induction events with
  | nil => intro _; rfl
  | cons e rest ih =>
    intro hmem
    have hrest : RecvEvent.recvError ∉ rest :=
      fun h => hmem (List.mem_cons_of_mem _ h)
    cases e with
    | recvError => exact absurd (List.mem_cons_self _ _) hmem
    | datagram d =>
      cases hd : decode d with
      | none => simp [listenLoop, hd, eventDecode, ih hrest]
      | some p => simp [listenLoop, hd, hw p, eventDecode, ih hrest]

/-- C4: for every well-formed RTP datagram received by an ingest
listener (no receive error, writes accepted), the packets forwarded into
the bound track are exactly the decode results in order, and each
forwarded packet has SSRC, sequence number, timestamp, payload type and
payload bytes identical to those decoded from its datagram: no rewriting
happens between receive and track write. -/
theorem rtp_passthrough
    (decode : List Nat → Option RTPPacket) (writeOk : RTPPacket → Bool)
    (events : List RecvEvent)
    (hw : ∀ p, writeOk p = true)
    (hne : RecvEvent.recvError ∉ events) :
    (listenRTP true decode writeOk events).1
        = events.filterMap (eventDecode decode) ∧
    ∀ (d : List Nat) (p : RTPPacket),
      RecvEvent.datagram d ∈ events → decode d = some p →
      ∃ q ∈ (listenRTP true decode writeOk events).1,
        q.ssrc = p.ssrc ∧ q.seq = p.seq ∧ q.ts = p.ts ∧
        q.payloadType = p.payloadType ∧ q.payload = p.payload := by
  have h := listenLoop_all_writes decode writeOk hw events hne
  have h1 : (listenRTP true decode writeOk events).1
      = events.filterMap (eventDecode decode) := by
    simp [listenRTP, h]
  refine ⟨h1, ?_⟩
  intro d p hmem hdec
  refine ⟨p, ?_, rfl, rfl, rfl, rfl, rfl⟩
  rw [h1]
  exact List.mem_filterMap.mpr ⟨.datagram d, hmem, hdec⟩

/-- A sample external RTP decoder recognizing one well-formed datagram,
used to evaluate the listener theorems on concrete inputs. -/
def sampleDecode : List Nat → Option RTPPacket :=
  fun bytes =>
    if bytes = [128, 96, 0, 1] then some ⟨9, 7, 5, 96, [1, 2]⟩ else none

/-- Witness for C4: a one-datagram run of the listener forwards the
decoded packet with all fields intact. -/
theorem rtp_passthrough_witness :
    (listenRTP true sampleDecode (fun _ => true)
        [RecvEvent.datagram [128, 96, 0, 1]]).1
      = [RecvEvent.datagram [128, 96, 0, 1]].filterMap
          (eventDecode sampleDecode) ∧
    ∃ q ∈ (listenRTP true sampleDecode (fun _ => true)
        [RecvEvent.datagram [128, 96, 0, 1]]).1,
      q.ssrc = 9 ∧ q.seq = 7 ∧ q.ts = 5 ∧ q.payloadType = 96 ∧
      q.payload = [1, 2] := by
  have h := rtp_passthrough sampleDecode (fun _ => true)
    [RecvEvent.datagram [128, 96, 0, 1]] (fun _ => rfl) (by decide)
  exact ⟨h.1, h.2 [128, 96, 0, 1] ⟨9, 7, 5, 96, [1, 2]⟩ (by decide) (by decide)⟩

/-- C6: a datagram whose bytes fail to decode is dropped and the receive
loop continues unchanged (nothing is written for it, and subsequent
well-formed datagrams are still relayed), whereas a failed track write
and a failed socket receive each terminate the loop. -/
theorem malformed_dropped_failures_terminate
    (decode : List Nat → Option RTPPacket) (writeOk : RTPPacket → Bool)
    (bad good : List Nat) (p : RTPPacket) (rest : List RecvEvent)
    (hbad : decode bad = none)
    (hgood : decode good = some p) (hwfail : writeOk p = false) :
    listenLoop decode writeOk (RecvEvent.datagram bad :: rest)
      = listenLoop decode writeOk rest ∧
    listenLoop decode writeOk (RecvEvent.datagram good :: rest)
      = ([], true) ∧
    listenLoop decode writeOk (RecvEvent.recvError :: rest) = ([], true) := by
  refine ⟨?_, ?_, rfl⟩
  · simp [listenLoop, hbad]
  · simp [listenLoop, hgood, hwfail]

/-- Witness for C6 over the sample decoder: a malformed datagram leaves
the loop equal to its continuation, and a failing write terminates
it. -/
theorem malformed_dropped_failures_terminate_witness :
    listenLoop sampleDecode (fun _ => false)
        (RecvEvent.datagram [0] :: [RecvEvent.datagram [128, 96, 0, 1]])
      = listenLoop sampleDecode (fun _ => false)
          [RecvEvent.datagram [128, 96, 0, 1]] ∧
    listenLoop sampleDecode (fun _ => false)
        (RecvEvent.datagram [128, 96, 0, 1]
          :: [RecvEvent.datagram [128, 96, 0, 1]]) = ([], true) ∧
    listenLoop sampleDecode (fun _ => false)
        (RecvEvent.recvError :: [RecvEvent.datagram [128, 96, 0, 1]])
      = ([], true) :=
  malformed_dropped_failures_terminate sampleDecode (fun _ => false)
    [0] [128, 96, 0, 1] ⟨9, 7, 5, 96, [1, 2]⟩
    [RecvEvent.datagram [128, 96, 0, 1]] (by decide) (by decide) rfl

/-- The status code carried by an error response, if any. -/
def HttpResponse.statusCode : HttpResponse → Option Nat
  | .ok _ => none
  | .error _ c => some c

/-- One environment per fallible step of the `part_000` start handler,
failing exactly that step. -/
def failureEnvs : List StartEnv :=
  [ { envAllOk with audioCodecOk := false },
    { envAllOk with videoCodecOk := false },
    { envAllOk with newPCOk := false },
    { envAllOk with audioTrackOk := false },
    { envAllOk with videoTrackOk := false },
    { envAllOk with createOfferOk := false },
    { envAllOk with setLocalOk := false },
    { envAllOk with newRequestOk := false },
    { envAllOk with httpResult := none },
    { envAllOk with httpResult := some (500, "ingest rejected") },
    { envAllOk with readAnswerOk := false },
    { envAllOk with setRemoteOk := false } ]

/-- C10 counterexample: the `part_000` Start cannot fail at the UDP
listener binding step: at the concrete environment in which both binds
fail and every other step succeeds, the handler still reports success
and the state becomes `Running`, so the claim that `part_000`'s Start
"can fail at each" of its steps — the listener binding included — is
false. -/
theorem start_cannot_fail_at_bind_cex :
    (p0_startHandler false
        { envAllOk with audioBindOk := false, videoBindOk := false }).resp
      = .ok "Relay started" ∧
    (p0_startHandler false
        { envAllOk with audioBindOk := false, videoBindOk := false }).running
      = true :=
  ⟨rfl, rfl⟩

/-- C10 (amended): the two Start variants are not equivalent.  The
`server.go` variant performs none of the construction, binding or
signaling steps — its embedding `sg_startHandler` is a function of the
lifecycle state and request body alone — and from idle with a decodable
body it always succeeds and sets the state running; the `part_000`
variant performs all of these steps and can fail at each of its twelve
fallible calls (each failure answering 500 and leaving the state idle),
but not at the UDP listener binding, whose outcomes cannot change
Start's success; and even its success acknowledgement differs from the
`server.go` one. -/
theorem start_variants_not_equivalent :
    (∀ req : StartRequest,
        sg_startHandler false (some req) = (.ok "asdsa", true)) ∧
    (failureEnvs.all fun e =>
        ((p0_startHandler false e).resp.statusCode == some 500) &&
        !(p0_startHandler false e).running) = true ∧
    (∀ a v : Bool,
        (p0_startHandler false
            { envAllOk with audioBindOk := a, videoBindOk := v }).resp
          = .ok "Relay started" ∧
        (p0_startHandler false
            { envAllOk with audioBindOk := a, videoBindOk := v }).running
          = true) ∧
    (p0_startHandler false envAllOk).resp
      ≠ (sg_startHandler false (some req0)).1 :=
  ⟨fun _ => rfl, by decide,
    fun a v => by cases a <;> cases v <;> exact ⟨rfl, rfl⟩, by decide⟩
